import Mathlib

/-!
Verification of the Parli token service (src/token-service/src/main.py):
a shallow embedding of the health endpoint, the token-issuance handler and
the per-client fixed-window rate limiter, together with theorems settling
the specified behavior.
-/

namespace Parli

/-- Request limit of the decorator policy string, 10 per minute (main.py line 71). -/
def rateLimitMax : Nat := 10

/-- Window length in seconds of the 10-per-minute policy. -/
def windowSeconds : Int := 60

/-- Token lifetime: timedelta of 5 minutes (main.py line 133), in seconds. -/
def tokenExpirySeconds : Int := 300

/-- Response model TokenResponse (main.py lines 54-61); the expires_at
timestamp is modelled as UTC seconds. -/
structure TokenResponse where
  token : String
  expires_at : Int
  token_type : String
deriving DecidableEq

/-- Python len of a string: its number of code points. -/
def pyLen (s : String) : Nat := s.data.length

/-- Python str.startswith on code points. -/
def pyStartsWith (s pre : String) : Bool :=
  decide (s.data.take pre.data.length = pre.data)

/-- Outcome of the try block of the handler: a normal return, a raised
HTTPException carrying a status and a detail, or any other raised exception. -/
inductive PyOutcome where
  | ret (r : TokenResponse)
  | httpExc (status : Nat) (detail : String)
  | otherExc (msg : String)
deriving DecidableEq

/-- Result of the whole handler as the framework sees it: a 200 payload or
an HTTPException mapped to a status and a detail. -/
inductive HandlerResult where
  | ok (r : TokenResponse)
  | httpError (status : Nat) (detail : String)
deriving DecidableEq

/-- Detail string raised when the key is absent (main.py line 103). -/
def detailMissing : String := "Service configuration error: API key missing"

/-- Detail string raised when the key has the wrong shape (main.py line 111). -/
def detailInvalidFormat : String := "Service configuration error: Invalid API key format"

/-- Detail string of the generic handler-boundary error (main.py line 153). -/
def detailInternal : String := "Internal server error during token creation"

/-- Try block of create_ephemeral_token (main.py lines 92-144).
The environment read os.getenv yields none when the variable is absent;
the Python truthiness test on the value treats none and the empty string
alike, so the emptiness case repeats the missing-key branch. -/
def tryBlock (api_key : Option String) (now : Int) : PyOutcome :=
  match api_key with
  | none => .httpExc 500 detailMissing
  | some key =>
    if key.data = [] then .httpExc 500 detailMissing
    else if pyStartsWith key "sk-" = false ∨ pyLen key < 20 then
      .httpExc 500 detailInvalidFormat
    else
      .ret { token := key, expires_at := now + tokenExpirySeconds, token_type := "Bearer" }

/-- Except clauses of create_ephemeral_token (main.py lines 146-154): an
HTTPException is re-raised unchanged, every other exception is normalized to
a generic 500 with a fixed detail. -/
def handleExcept : PyOutcome → HandlerResult
  | .ret r => .ok r
  | .httpExc status detail => .httpError status detail
  | .otherExc _ => .httpError 500 detailInternal

/-- Handler create_ephemeral_token (main.py lines 70-154): the try block
followed by the exception normalization at the handler boundary. -/
def create_ephemeral_token (api_key : Option String) (now : Int) : HandlerResult :=
  handleExcept (tryBlock api_key now)

/-- Shape required of the configured secret by the spec pattern: the fixed
prefix sk- and a total length of at least 20 code points. -/
def matchesKeyShape (s : String) : Bool :=
  pyStartsWith s "sk-" && decide (20 ≤ pyLen s)

/-- Per-key accounting of the fixed-window limiter: the window-start
timestamp and the request count inside the current window. -/
structure WindowState where
  windowStart : Int
  count : Nat
deriving DecidableEq

/-- Modelled from the spec: the admission step of the fixed-window rate
limiter. The limiter implementation (the slowapi Limiter of main.py line 24)
is not part of this repository's sources; the spec fixes its policy: 10
requests per minute per key, the counter zeroes when the window elapses, and
the admission check and the counter increment form a single atomic step. -/
def fixedWindowStep (st : Option WindowState) (t : Int) : Bool × WindowState :=
  let w : WindowState :=
    match st with
    | none => { windowStart := t, count := 0 }
    | some w =>
      if w.windowStart + windowSeconds ≤ t then { windowStart := t, count := 0 } else w
  if w.count < rateLimitMax then (true, { w with count := w.count + 1 })
  else (false, w)

/-- Limiter state: per-ClientKey window accounting, created lazily on the
first request from a key. -/
abbrev LimiterState := List (String × WindowState)

/-- Lookup of the accounting entry of one client key. -/
def lookupKey : LimiterState → String → Option WindowState
  | [], _ => none
  | (k, w) :: rest, key => if k = key then some w else lookupKey rest key

/-- Store of the accounting entry of one client key. -/
def setKey : LimiterState → String → WindowState → LimiterState
  | [], key, w => [(key, w)]
  | (k, v) :: rest, key, w =>
    if k = key then (key, w) :: rest else (k, v) :: setKey rest key w

/-- Modelled from the spec: one limiter decision for a given ClientKey at
time t, atomically reading and updating that key's window state. -/
def limiterStep (st : LimiterState) (key : String) (t : Int) : Bool × LimiterState :=
  let r := fixedWindowStep (lookupKey st key) t
  (r.1, setKey st key r.2)

/-- Body of a response of the token endpoint: a token payload, an
HTTPException detail, or the rate-limit error indicator. -/
inductive Body where
  | tokenBody (r : TokenResponse)
  | errorDetail (detail : String)
  | rateLimitError (error : String)
deriving DecidableEq

/-- HTTP response: a status code and a body. -/
structure Response where
  status : Nat
  body : Body
deriving DecidableEq

/-- Error indicator of the 429 body produced by the registered
rate-limit-exceeded handler (main.py line 34) for the 10-per-minute policy. -/
def rateLimitMessage : String := "Rate limit exceeded: 10 per 1 minute"

/-- Modelled from the spec: dispatch of POST /realtime/ephemeral. The
limiter decorator (main.py line 71) runs before the handler body and
short-circuits with 429 and the error body, never reaching the handler;
otherwise the handler runs with the configured secret and the current time. -/
def serve (st : LimiterState) (key : String) (t : Int) (api_key : Option String) :
    Response × LimiterState :=
  let step := limiterStep st key t
  if step.1 then
    match create_ephemeral_token api_key t with
    | .ok r => ({ status := 200, body := .tokenBody r }, step.2)
    | .httpError s d => ({ status := s, body := .errorDetail d }, step.2)
  else ({ status := 429, body := .rateLimitError rateLimitMessage }, step.2)

/-- Statuses of a sequence of requests from one key, threading the limiter
state through the dispatch. -/
def serveSeq (st : LimiterState) (key : String) (api_key : Option String) :
    List Int → List Nat × LimiterState
  | [] => ([], st)
  | t :: ts =>
    let r := serve st key t api_key
    let rest := serveSeq r.2 key api_key ts
    (r.1.status :: rest.1, rest.2)

/-- Payload of the health endpoint. -/
structure HealthResponse where
  status : String
  timestamp : Int
deriving DecidableEq

/-- Handler health_check (main.py lines 64-67). -/
def health_check (now : Int) : HealthResponse :=
  { status := "healthy", timestamp := now }

/-- Dispatch of GET /healthz: the handler reads no configuration, so the
response is the 200 liveness payload whatever the configured secret is. -/
def serveHealth (api_key : Option String) (now : Int) : Nat × HealthResponse :=
  (200, health_check now)

lemma matchesKeyShape_iff {s : String} :
    matchesKeyShape s = true ↔ pyStartsWith s "sk-" = true ∧ 20 ≤ pyLen s := by
  simp [matchesKeyShape]

lemma tryBlock_valid {s : String} (hs : matchesKeyShape s = true) (now : Int) :
    tryBlock (some s) now = .ret ⟨s, now + 300, "Bearer"⟩ := by
  obtain ⟨h1, h2⟩ := matchesKeyShape_iff.mp hs
  have hne : s.data ≠ [] := by
    intro h0
    simp [pyLen, h0] at h2
  have hcond : ¬ (pyStartsWith s "sk-" = false ∨ pyLen s < 20) := by
    rintro (hc | hc)
    · rw [h1] at hc; exact Bool.noConfusion hc
    · omega
  simp [tryBlock, hne, hcond, tokenExpirySeconds]

lemma create_valid {s : String} (hs : matchesKeyShape s = true) (now : Int) :
    create_ephemeral_token (some s) now = .ok ⟨s, now + 300, "Bearer"⟩ := by
  rw [create_ephemeral_token, tryBlock_valid hs]
  rfl

/-- Claim C2: every admitted request with a configured secret of the required
shape gets a 200 response whose token field is the secret itself and whose
token type is the literal Bearer. -/
theorem C2_success_returns_secret (st : LimiterState) (key s : String) (t : Int)
    (hadm : (limiterStep st key t).1 = true) (hs : matchesKeyShape s = true) :
    (serve st key t (some s)).1 = ⟨200, .tokenBody ⟨s, t + 300, "Bearer"⟩⟩ := by
  simp [serve, hadm, create_valid hs]

theorem C2_success_returns_secret_witness :
    (limiterStep [] "1.2.3.4" 0).1 = true ∧
    (serve [] "1.2.3.4" 0 (some "sk-test_key_1234567890abcdef")).1 =
      ⟨200, .tokenBody ⟨"sk-test_key_1234567890abcdef", 300, "Bearer"⟩⟩ :=
  ⟨by decide,
    C2_success_returns_secret [] "1.2.3.4" "sk-test_key_1234567890abcdef" 0
      (by decide) (by decide)⟩

/-- Claim C3: every successful handler result carries an expiry of exactly
the request-handling time plus 5 minutes, hence within 295 and 305 seconds
of it. -/
theorem C3_expiry_window (api_key : Option String) (now : Int) (r : TokenResponse)
    (h : create_ephemeral_token api_key now = .ok r) :
    r.expires_at - now = 300 ∧ 295 ≤ r.expires_at - now ∧ r.expires_at - now ≤ 305 := by
  cases api_key with
  | none => exact absurd h (by simp [create_ephemeral_token, tryBlock, handleExcept])
  | some key =>
    simp only [create_ephemeral_token, tryBlock] at h
    by_cases h0 : key.data = []
    · rw [if_pos h0] at h
      exact absurd h (by simp [handleExcept])
    · rw [if_neg h0] at h
      by_cases h1 : pyStartsWith key "sk-" = false ∨ pyLen key < 20
      · rw [if_pos h1] at h
        exact absurd h (by simp [handleExcept])
      · rw [if_neg h1] at h
        simp only [handleExcept, HandlerResult.ok.injEq] at h
        rw [← h]
        simp [tokenExpirySeconds]

theorem C3_expiry_window_witness :
    ((⟨"sk-test_key_1234567890abcdef", 300, "Bearer"⟩ : TokenResponse).expires_at - 0 = 300) ∧
    295 ≤ (⟨"sk-test_key_1234567890abcdef", 300, "Bearer"⟩ : TokenResponse).expires_at - 0 ∧
    (⟨"sk-test_key_1234567890abcdef", 300, "Bearer"⟩ : TokenResponse).expires_at - 0 ≤ 305 :=
  C3_expiry_window (some "sk-test_key_1234567890abcdef") 0 _ (by decide)

/-- Claim C4: with no configured secret the handler fails with 500 and the
missing-key detail; the result is an error, so no TokenResponse is built. -/
theorem C4_missing_key (now : Int) :
    create_ephemeral_token none now = .httpError 500 detailMissing := rfl

/-- Claim C7: at the handler boundary an HTTPException propagates unchanged
while every other exception is normalized to 500 with the fixed generic
detail, independent of the exception message, so neither the message nor the
secret ever reaches the client. -/
theorem C7_exception_normalization (status : Nat) (d msg msg2 : String) :
    handleExcept (.httpExc status d) = .httpError status d ∧
    handleExcept (.otherExc msg) = .httpError 500 detailInternal ∧
    handleExcept (.otherExc msg) = handleExcept (.otherExc msg2) :=
  ⟨rfl, rfl, rfl⟩

/-- Claim C9: the health endpoint answers 200 with the fixed liveness
payload whatever the configured secret is. -/
theorem C9_health_always_200 (api_key : Option String) (now : Int) :
    serveHealth api_key now = (200, ⟨"healthy", now⟩) := rfl

/-- Claim C10: an empty configured secret is treated by the truthiness check
as absent, so the handler reports the missing-key detail. -/
theorem C10_empty_key_missing (now : Int) :
    create_ephemeral_token (some "") now = .httpError 500 detailMissing := rfl

/-- Claim C5, counterexample: the empty string is a present secret that
fails the shape check, yet the handler reports the missing-key detail, not
the invalid-format one. -/
theorem C5_counterexample :
    matchesKeyShape "" = false ∧
    create_ephemeral_token (some "") 0 = .httpError 500 detailMissing ∧
    create_ephemeral_token (some "") 0 ≠ .httpError 500 detailInvalidFormat := by
  refine ⟨by decide, rfl, ?_⟩
  decide

/-- Claim C5, amended: a present and non-empty configured secret that fails
the shape check makes the handler fail with 500 and the invalid-format
detail, and no TokenResponse is built. -/
theorem C5_invalid_format (s : String) (now : Int) (hne : s.data ≠ [])
    (hbad : matchesKeyShape s = false) :
    create_ephemeral_token (some s) now = .httpError 500 detailInvalidFormat := by
  have hcond : pyStartsWith s "sk-" = false ∨ pyLen s < 20 := by
    by_contra hc
    push_neg at hc
    obtain ⟨h1, h2⟩ := hc
    have h1t : pyStartsWith s "sk-" = true := by
      cases hps : pyStartsWith s "sk-"
      · exact absurd hps h1
      · rfl
    rw [matchesKeyShape_iff.mpr ⟨h1t, h2⟩] at hbad
    exact Bool.noConfusion hbad
  rw [create_ephemeral_token, tryBlock, if_neg hne, if_pos hcond]
  rfl

theorem C5_invalid_format_witness :
    ("invalid_key").data ≠ [] ∧ matchesKeyShape "invalid_key" = false ∧
    create_ephemeral_token (some "invalid_key") 0 =
      .httpError 500 detailInvalidFormat :=
  ⟨by decide, by decide, C5_invalid_format "invalid_key" 0 (by decide) (by decide)⟩

/-- Claim C6: a request not admitted by the limiter is answered 429 with the
rate-limit error body, and the handler never runs: the whole outcome is
independent of the configured secret and the body is no token payload. -/
theorem C6_rate_limit_rejection (st : LimiterState) (key : String) (t : Int)
    (e e2 : Option String) (h : (limiterStep st key t).1 = false) :
    (serve st key t e).1 = ⟨429, .rateLimitError rateLimitMessage⟩ ∧
    serve st key t e = serve st key t e2 := by
  constructor
  · simp [serve, h]
  · simp [serve, h]

theorem C6_rate_limit_rejection_witness :
    (limiterStep [("1.2.3.4", ⟨0, 10⟩)] "1.2.3.4" 0).1 = false ∧
    ((serve [("1.2.3.4", ⟨0, 10⟩)] "1.2.3.4" 0 (some "sk-test_key_1234567890abcdef")).1 =
        ⟨429, .rateLimitError rateLimitMessage⟩ ∧
      serve [("1.2.3.4", ⟨0, 10⟩)] "1.2.3.4" 0 (some "sk-test_key_1234567890abcdef") =
        serve [("1.2.3.4", ⟨0, 10⟩)] "1.2.3.4" 0 none) :=
  ⟨by decide,
    C6_rate_limit_rejection [("1.2.3.4", ⟨0, 10⟩)] "1.2.3.4" 0
      (some "sk-test_key_1234567890abcdef") none (by decide)⟩


lemma serve_fresh (key s : String) (hs : matchesKeyShape s = true) (t : Int) :
    serve [] key t (some s) =
      (⟨200, .tokenBody ⟨s, t + 300, "Bearer"⟩⟩, [(key, ⟨t, 1⟩)]) := by
  simp [serve, limiterStep, lookupKey, fixedWindowStep, setKey, rateLimitMax,
    create_valid hs]

lemma serve_in_window (key s : String) (hs : matchesKeyShape s = true)
    (w0 t : Int) (c : Nat) (hc : c < 10) (hlt : t < w0 + 60) :
    serve [(key, ⟨w0, c⟩)] key t (some s) =
      (⟨200, .tokenBody ⟨s, t + 300, "Bearer"⟩⟩, [(key, ⟨w0, c + 1⟩)]) := by
  have hreset : ¬ (w0 + windowSeconds ≤ t) := by simp only [windowSeconds]; omega
  have hlim : c < rateLimitMax := hc
  simp [serve, limiterStep, lookupKey, fixedWindowStep, setKey, hreset, hlim,
    create_valid hs]

lemma serve_window_full (key : String) (w0 t : Int) (hlt : t < w0 + 60)
    (ak : Option String) :
    serve [(key, ⟨w0, 10⟩)] key t ak =
      (⟨429, .rateLimitError rateLimitMessage⟩, [(key, ⟨w0, 10⟩)]) := by
  have hreset : ¬ (w0 + windowSeconds ≤ t) := by simp only [windowSeconds]; omega
  simp [serve, limiterStep, lookupKey, fixedWindowStep, setKey, hreset, rateLimitMax]

lemma serve_after_window (key s : String) (hs : matchesKeyShape s = true)
    (w0 t : Int) (c : Nat) (hge : w0 + 60 ≤ t) :
    serve [(key, ⟨w0, c⟩)] key t (some s) =
      (⟨200, .tokenBody ⟨s, t + 300, "Bearer"⟩⟩, [(key, ⟨t, 1⟩)]) := by
  have hreset : w0 + windowSeconds ≤ t := by simp only [windowSeconds]; omega
  simp [serve, limiterStep, lookupKey, fixedWindowStep, setKey, hreset, rateLimitMax,
    create_valid hs]

lemma serveSeq_cons (st : LimiterState) (key : String) (ak : Option String)
    (t : Int) (ts : List Int) :
    serveSeq st key ak (t :: ts) =
      ((serve st key t ak).1.status :: (serveSeq (serve st key t ak).2 key ak ts).1,
        (serveSeq (serve st key t ak).2 key ak ts).2) := rfl

lemma serveSeq_append (st : LimiterState) (key : String) (ak : Option String)
    (ts1 ts2 : List Int) :
    serveSeq st key ak (ts1 ++ ts2) =
      ((serveSeq st key ak ts1).1 ++ (serveSeq (serveSeq st key ak ts1).2 key ak ts2).1,
        (serveSeq (serveSeq st key ak ts1).2 key ak ts2).2) := by
  induction ts1 generalizing st with
  | nil => simp [serveSeq]
  | cons t ts ih => simp [serveSeq_cons, ih]

lemma serveSeq_window_run (key s : String) (hs : matchesKeyShape s = true) (w0 : Int)
    (ts : List Int) :
    ∀ c : Nat, c + ts.length ≤ 10 → (∀ t ∈ ts, t < w0 + 60) →
      serveSeq [(key, ⟨w0, c⟩)] key (some s) ts =
        (List.replicate ts.length 200, [(key, ⟨w0, c + ts.length⟩)]) := by
  induction ts with
  | nil => intro c _ _; simp [serveSeq]
  | cons t ts ih =>
    intro c hc hwin
    have hc9 : c < 10 := by simp [List.length_cons] at hc; omega
    rw [serveSeq_cons, serve_in_window key s hs w0 t c hc9 (hwin t (by simp))]
    have hrec := ih (c + 1) (by simp [List.length_cons] at hc ⊢; omega)
      (fun u hu => hwin u (by simp [hu]))
    simp only [hrec, List.length_cons, List.replicate_succ]
    have harith : c + 1 + ts.length = c + (ts.length + 1) := by omega
    rw [harith]


/-- Claim C1: from a fresh limiter state and a fixed client key, with a
configured secret of the required shape, each of the first 10 requests
inside one window is answered 200, the 11th request inside that window is
answered 429, and once the window has elapsed the next request from the same
key is answered 200 again. -/
theorem C1_fixed_window_policy (key s : String) (t0 tNext : Int) (ts : List Int)
    (hs : matchesKeyShape s = true) (hlen : ts.length = 10)
    (hwin : ∀ t ∈ ts, t0 ≤ t ∧ t < t0 + 60) (hNext : t0 + 60 ≤ tNext) :
    (serveSeq [] key (some s) (t0 :: ts)).1 = List.replicate 10 200 ++ [429] ∧
    (serve (serveSeq [] key (some s) (t0 :: ts)).2 key tNext (some s)).1 =
      ⟨200, .tokenBody ⟨s, tNext + 300, "Bearer"⟩⟩ := by
  have hne : ts ≠ [] := by
    intro h
    rw [h] at hlen
    exact absurd hlen (by decide)
  obtain ⟨init, tLast, rfl⟩ : ∃ init tLast, ts = init ++ [tLast] :=
    ⟨ts.dropLast, ts.getLast hne, (List.dropLast_append_getLast hne).symm⟩
  have hinit : init.length = 9 := by
    simp [List.length_append] at hlen
    omega
  have hrun : serveSeq [(key, ⟨t0, 1⟩)] key (some s) init =
      (List.replicate 9 200, [(key, ⟨t0, 10⟩)]) := by
    have h := serveSeq_window_run key s hs t0 init 1 (by omega)
      (fun u hu => (hwin u (by simp [hu])).2)
    rw [hinit] at h
    simpa using h
  have hlast : tLast < t0 + 60 := (hwin tLast (by simp)).2
  have hseq : serveSeq [] key (some s) (t0 :: (init ++ [tLast])) =
      (200 :: (List.replicate 9 200 ++ [429]), [(key, ⟨t0, 10⟩)]) := by
    rw [serveSeq_cons, serve_fresh key s hs t0]
    simp only [serveSeq_append, hrun]
    simp [serveSeq_cons, serve_window_full key t0 tLast hlast (some s), serveSeq]
  constructor
  · rw [hseq]
    show 200 :: (List.replicate 9 200 ++ [429]) = List.replicate 10 200 ++ [429]
    decide
  · rw [hseq]
    exact congrArg Prod.fst (serve_after_window key s hs t0 tNext 10 hNext)

theorem C1_fixed_window_policy_witness :
    matchesKeyShape "sk-test_key_1234567890abcdef" = true ∧
    ((serveSeq [] "1.2.3.4" (some "sk-test_key_1234567890abcdef")
          ((0 : Int) :: [1, 2, 3, 4, 5, 6, 7, 8, 9, 10])).1 =
        List.replicate 10 200 ++ [429] ∧
      (serve (serveSeq [] "1.2.3.4" (some "sk-test_key_1234567890abcdef")
            ((0 : Int) :: [1, 2, 3, 4, 5, 6, 7, 8, 9, 10])).2 "1.2.3.4" 60
          (some "sk-test_key_1234567890abcdef")).1 =
        ⟨200, .tokenBody ⟨"sk-test_key_1234567890abcdef", 360, "Bearer"⟩⟩) :=
  ⟨by decide,
    C1_fixed_window_policy "1.2.3.4" "sk-test_key_1234567890abcdef" 0 60
      [1, 2, 3, 4, 5, 6, 7, 8, 9, 10] (by decide) (by decide) (by decide) (by decide)⟩

/-- Claim C8: with the admission check and the counter increment a single
atomic step, a concurrent schedule of two requests coincides with their
sequential composition; when exactly one admission slot remains for a key,
two simultaneous requests from that key inside the window yield exactly one
200 and one 429. -/
theorem C8_no_double_admission (key s : String) (w0 t : Int)
    (hs : matchesKeyShape s = true) (hlo : w0 ≤ t) (hhi : t < w0 + 60) :
    (serveSeq [(key, ⟨w0, 9⟩)] key (some s) [t, t]).1 = [200, 429] ∧
    (serveSeq [(key, ⟨w0, 9⟩)] key (some s) [t, t]).1.count 200 = 1 ∧
    (serveSeq [(key, ⟨w0, 9⟩)] key (some s) [t, t]).1.count 429 = 1 := by
  have h1 := serve_in_window key s hs w0 t 9 (by omega) hhi
  have h2 := serve_window_full key w0 t hhi (some s)
  have hseq : serveSeq [(key, ⟨w0, 9⟩)] key (some s) [t, t] =
      ([200, 429], [(key, ⟨w0, 10⟩)]) := by
    rw [serveSeq_cons, h1]
    simp [serveSeq_cons, h2, serveSeq]
  rw [hseq]
  refine ⟨rfl, ?_, ?_⟩
  · show ([200, 429] : List Nat).count 200 = 1
    decide
  · show ([200, 429] : List Nat).count 429 = 1
    decide

theorem C8_no_double_admission_witness :
    matchesKeyShape "sk-test_key_1234567890abcdef" = true ∧
    ((serveSeq [("1.2.3.4", ⟨0, 9⟩)] "1.2.3.4"
          (some "sk-test_key_1234567890abcdef") [0, 0]).1 = [200, 429] ∧
      (serveSeq [("1.2.3.4", ⟨0, 9⟩)] "1.2.3.4"
          (some "sk-test_key_1234567890abcdef") [0, 0]).1.count 200 = 1 ∧
      (serveSeq [("1.2.3.4", ⟨0, 9⟩)] "1.2.3.4"
          (some "sk-test_key_1234567890abcdef") [0, 0]).1.count 429 = 1) :=
  ⟨by decide,
    C8_no_double_admission "1.2.3.4" "sk-test_key_1234567890abcdef" 0 0
      (by decide) (by decide) (by decide)⟩

end Parli
